import Mathlib

/-!
Verification of the cinea media-library scanning and reconciliation core.

The Go sources are shallowly embedded: pure helpers become Lean functions,
the repository layer becomes explicit state passing over a `DB` value, and
external collaborators (the ffprobe subprocess, the TMDb HTTP client, the
Go standard library's numeric/date parsers, and injected database faults)
are threaded through explicit environment records.  Times are modelled as
natural-number ticks; `time.Now()` becomes an explicit `now` value carried
by the environment.  Strings are ASCII-modelled: the only case mapping the
embedded code relies on is the ASCII range.
-/

namespace Cinea

/-- Model of Go `time.Time` (and `time.Duration`): an integer tick count. -/
abbrev Time := Int

/-- Model of a Go `error` value: the message carried by `fmt.Errorf`. -/
abbrev GoErr := String

deriving instance DecidableEq for Except

/-! ## String helpers (models of the Go standard library functions used) -/

/-- ASCII case mapping used to model `strings.ToLower` (the embedded code
only ever compares ASCII markers). -/
def lowerChar (c : Char) : Char :=
  if 'A' ≤ c ∧ c ≤ 'Z' then Char.ofNat (c.toNat + 32) else c

/-- Model of `strings.ToLower` restricted to ASCII case mapping. -/
def lowerStr (s : String) : String := ⟨s.data.map lowerChar⟩

/-- Auxiliary: list-of-chars starts-with test. -/
def isPre : List Char → List Char → Bool
  | [], _ => true
  | _ :: _, [] => false
  | a :: as, b :: bs => a = b && isPre as bs

/-- Auxiliary: substring containment on char lists. -/
def containsSeq (s pat : List Char) : Bool :=
  match s with
  | [] => pat.isEmpty
  | _ :: rest => isPre pat s || containsSeq rest pat

/-- Model of Go `strings.Contains`. -/
def strContains (s pat : String) : Bool := containsSeq s.data pat.data

/-- Whitespace class used by `strings.Fields` / `strings.TrimSpace`
(ASCII part of Unicode white space). -/
def isWhite (c : Char) : Bool :=
  c = ' ' || c = '\t' || c = '\n' || c = '\r' || c = '\x0b' || c = '\x0c'

/-- Model of `strings.TrimSpace` (ASCII whitespace). -/
def trimSpaceL (l : List Char) : List Char :=
  ((l.dropWhile isWhite).reverse.dropWhile isWhite).reverse

/-- Model of `strings.TrimSuffix`: drop `suf` if it is a suffix of `s`. -/
def trimSuffixL (s suf : List Char) : List Char :=
  if isPre suf.reverse s.reverse then (s.reverse.drop suf.length).reverse else s

/-- Chars of the path element after the last slash (helper for
`filepath.Base`). -/
def afterLastSlash (l : List Char) : List Char :=
  l.foldl (fun acc c => if c = '/' then [] else acc ++ [c]) []

/-- Model of Go `filepath.Base` (slash-separated paths): empty path gives
".", trailing slashes are dropped, an all-slash path gives "/". -/
def pathBase (p : String) : String :=
  if p.data.isEmpty then "."
  else
    let l := (p.data.reverse.dropWhile (· = '/')).reverse
    if l.isEmpty then "/" else ⟨afterLastSlash l⟩

/-- Model of Go `filepath.Ext`: the suffix from the final dot of the final
path element, empty when that element has no dot. -/
def pathExt (p : String) : String :=
  let rec go : List Char → List Char → List Char
    | [], _ => []
    | c :: rest, acc =>
      if c = '/' then []
      else if c = '.' then c :: acc
      else go rest (c :: acc)
  ⟨go p.data.reverse []⟩

/-- Model of `strings.Fields`: split on runs of whitespace. -/
def fieldsL (l : List Char) : List (List Char) :=
  let step := fun (st : List (List Char) × List Char) (c : Char) =>
    if isWhite c then
      match st.2 with
      | [] => st
      | w => (st.1 ++ [w], [])
    else (st.1, st.2 ++ [c])
  let fin := l.foldl step ([], [])
  match fin.2 with
  | [] => fin.1
  | w => fin.1 ++ [w]

/-- Join char-list words with single spaces (model of `strings.Join` with
separator " "). -/
def joinSpace : List (List Char) → List Char
  | [] => []
  | [w] => w
  | w :: ws => w ++ ' ' :: joinSpace ws

/-! ## Filename heuristics (scanner package, helpers file) -/

/-- Result record of `extractMovieInfo` (scanner `mediaInfo`). -/
structure MediaInfo where
  title : String
  year : String
deriving Repr, DecidableEq

/-- Result record of `extractTVShowInfo` (scanner `tvShowInfo`); season and
episode are Go ints, always non-negative here (they come from one- or
two-digit captures), so they are modelled as `Nat`. -/
structure TvShowInfo where
  title : String
  season : Nat
  episode : Nat
deriving Repr, DecidableEq

/-- Embedding of scanner `isVideoFile`: lowercased `filepath.Ext` is looked
up in the container-extension allow-list. -/
def isVideoFile (path : String) : Bool :=
  let ext := lowerStr (pathExt path)
  ext = ".mp4" || ext = ".mkv" || ext = ".avi" || ext = ".mov" ||
  ext = ".m4v" || ext = ".webm" || ext = ".wmv" || ext = ".flv" || ext = ".ts"

/-- Embedding of scanner `isLikelyTVFile`: the base filename contains "S0"
or "E0", or its lowercasing contains "s0" or "e0". -/
def isLikelyTVFile (path : String) : Bool :=
  let filename := pathBase path
  strContains filename "S0" || strContains filename "E0" ||
  strContains (lowerStr filename) "s0" || strContains (lowerStr filename) "e0"

/-- Embedding of scanner `cleanTitle`: dots and underscores become spaces,
then whitespace runs collapse to single spaces. -/
def cleanTitle (s : String) : String :=
  ⟨joinSpace (fieldsL (s.data.map fun c => if c = '.' || c = '_' then ' ' else c))⟩

/-- Digit test for the regex class `\d` (RE2: ASCII digits). -/
def isDigitCh (c : Char) : Bool := '0' ≤ c && c ≤ '9'

/-- Numeric value of an ASCII digit (models `strconv.Atoi` on the captured
digit group). -/
def digitVal (c : Char) : Nat := c.toNat - '0'.toNat

/-- RE2 whitespace class `\s`. -/
def isReWhite (c : Char) : Bool :=
  c = ' ' || c = '\t' || c = '\n' || c = '\x0c' || c = '\r'

/-- Matcher for the movie-year regex alternative chosen at a given
position.  The source regex (scanner `extractMovieInfo`) is
  (non-capturing) \s*\(dddd\)  |  \s*\[dddd\]  |  \.dddd\.
tried in this order; the whitespace run is deterministic because the
character required after it is never whitespace. -/
def movieYearAt (rest : List Char) : Option (List Char) :=
  let paren :=
    match rest.dropWhile isReWhite with
    | '(' :: d1 :: d2 :: d3 :: d4 :: ')' :: _ =>
      if isDigitCh d1 && isDigitCh d2 && isDigitCh d3 && isDigitCh d4 then
        some [d1, d2, d3, d4]
      else none
    | _ => none
  let brack :=
    match rest.dropWhile isReWhite with
    | '[' :: d1 :: d2 :: d3 :: d4 :: ']' :: _ =>
      if isDigitCh d1 && isDigitCh d2 && isDigitCh d3 && isDigitCh d4 then
        some [d1, d2, d3, d4]
      else none
    | _ => none
  let dots :=
    match rest with
    | '.' :: d1 :: d2 :: d3 :: d4 :: '.' :: _ =>
      if isDigitCh d1 && isDigitCh d2 && isDigitCh d3 && isDigitCh d4 then
        some [d1, d2, d3, d4]
      else none
    | _ => none
  (paren.orElse fun _ => brack).orElse fun _ => dots

/-- Leftmost-first scan for the movie-year regex: the lazy leading group
grows one (non-newline) character at a time and at each position the year
alternatives are tried; the first success yields (title-prefix, year). -/
def movieScan (acc rest : List Char) : Option (List Char × List Char) :=
  match movieYearAt rest with
  | some y => some (acc, y)
  | none =>
    match rest with
    | [] => none
    | c :: t => if c = '\n' then none else movieScan (acc ++ [c]) t

/-- Embedding of scanner `extractMovieInfo`: base name minus extension is
matched against the year regex; on a match the title is the trimmed prefix
and the year the captured digits, otherwise the title is the raw stem and
the year is empty. -/
def extractMovieInfo (path : String) : MediaInfo :=
  let filename := pathBase path
  let nameOnly := trimSuffixL filename.data (pathExt filename).data
  match movieScan [] nameOnly with
  | some (t, y) => { title := ⟨trimSpaceL t⟩, year := ⟨y⟩ }
  | none => { title := ⟨nameOnly⟩, year := "" }

/-- Separator class `[. _-]` of the TV-show regexes. -/
def isSep (c : Char) : Bool := c = '.' || c = ' ' || c = '_' || c = '-'

/-- Consume one-or-more separators (greedy; deterministic because the
character required after the class is never a separator). -/
def takeSeps (l : List Char) : Option (List Char) :=
  match l with
  | c :: rest => if isSep c then some (rest.dropWhile isSep) else none
  | [] => none

/-- Greedy match of `(\d{1,2})` immediately followed by the (case folded)
character `k`: two digits are preferred, one digit is the backtrack. -/
def digits12ThenChar (k : Char) (l : List Char) : Option (Nat × List Char) :=
  match l with
  | [] => none
  | d1 :: rest =>
    if ¬ isDigitCh d1 then none
    else
      match rest with
      | d2 :: c :: rest3 =>
        if isDigitCh d2 && lowerChar c = k then
          some (10 * digitVal d1 + digitVal d2, rest3)
        else if lowerChar d2 = k then some (digitVal d1, c :: rest3)
        else none
      | [d2] => if lowerChar d2 = k then some (digitVal d1, []) else none
      | [] => none

/-- Greedy match of a trailing `(\d{1,2})` (nothing constrained after it). -/
def digits12 (l : List Char) : Option Nat :=
  match l with
  | d1 :: d2 :: _ =>
    if isDigitCh d1 && isDigitCh d2 then some (10 * digitVal d1 + digitVal d2)
    else if isDigitCh d1 then some (digitVal d1)
    else none
  | [d1] => if isDigitCh d1 then some (digitVal d1) else none
  | [] => none

/-- Tail matcher of pattern 1, `[. _-]+S(\d{1,2})E(\d{1,2})`
(case-insensitive). -/
def p1Tail (l : List Char) : Option (Nat × Nat) := do
  let r ← takeSeps l
  match r with
  | c :: r2 =>
    if lowerChar c = 's' then do
      let (se, r3) ← digits12ThenChar 'e' r2
      let ep ← digits12 r3
      pure (se, ep)
    else none
  | [] => none

/-- Tail matcher of pattern 2, `[. _-]+(\d{1,2})x(\d{1,2})`
(case-insensitive). -/
def p2Tail (l : List Char) : Option (Nat × Nat) := do
  let r ← takeSeps l
  let (se, r2) ← digits12ThenChar 'x' r
  let ep ← digits12 r2
  pure (se, ep)

/-- Tail matcher of pattern 3, `[. _-]+(\d)(\d{2})`. -/
def p3Tail (l : List Char) : Option (Nat × Nat) := do
  let r ← takeSeps l
  match r with
  | d1 :: d2 :: d3 :: _ =>
    if isDigitCh d1 && isDigitCh d2 && isDigitCh d3 then
      some (digitVal d1, 10 * digitVal d2 + digitVal d3)
    else none
  | _ => none

/-- Leftmost-first scan for a TV pattern: the lazy `(.+?)` group (at least
one non-newline character) grows from the left and `tail` is tried at each
split; first success returns (title chars, season, episode). -/
def tvScan (tail : List Char → Option (Nat × Nat)) (acc rest : List Char) :
    Option (List Char × Nat × Nat) :=
  match rest with
  | [] => none
  | c :: t =>
    if c = '\n' then none
    else
      match tail t with
      | some (se, ep) => some (acc ++ [c], se, ep)
      | none => tvScan tail (acc ++ [c]) t

/-- Embedding of scanner `extractTVShowInfo`: the three patterns are tried
in order on the extension-stripped base name; a match yields the cleaned
title with season/episode numbers, otherwise season and episode stay at
their zero values. -/
def extractTVShowInfo (path : String) : TvShowInfo :=
  let filename := pathBase path
  let nameOnly := trimSuffixL filename.data (pathExt filename).data
  match tvScan p1Tail [] nameOnly with
  | some (t, se, ep) => { title := cleanTitle ⟨t⟩, season := se, episode := ep }
  | none =>
    match tvScan p2Tail [] nameOnly with
    | some (t, se, ep) => { title := cleanTitle ⟨t⟩, season := se, episode := ep }
    | none =>
      match tvScan p3Tail [] nameOnly with
      | some (t, se, ep) => { title := cleanTitle ⟨t⟩, season := se, episode := ep }
      | none => { title := cleanTitle ⟨nameOnly⟩, season := 0, episode := 0 }

/-! ## ffprobe output model (ffmpeg package types, extractor parsing)

`encoding/json` and the numeric parsers of `strconv` are Go standard
library externals: the unmarshal step is modelled by handing the parse
function an already-decoded document (`none` = unmarshal failure), and the
numeric parsers are fields of a `ParseEnv` environment.  Maps become
association lists; the float64 vote/duration payloads are only ever copied
verbatim by the embedded code, so they are carried as integer ticks. -/

/-- Dolby-Vision side data block attached to a stream; only ever copied. -/
structure SideData where
  sideDataType : String
  dvProfile : Option Int
  dvLevel : Option Int
deriving Repr, DecidableEq

/-- Decoded `format` block of the ffprobe JSON document. -/
structure FfFormat where
  filename : String
  formatName : String
  formatLongName : String
  duration : String
  size : String
  bitRate : String
  probeScore : Int
  tags : List (String × String)
deriving Repr, DecidableEq

/-- Decoded entry of the `streams` array of the ffprobe JSON document. -/
structure FfStream where
  index : Int
  codecName : String
  codecType : String
  codecLongName : String
  profile : String
  width : Int
  height : Int
  codedWidth : Int
  codedHeight : Int
  hasBFrames : Int
  avgFrameRate : String
  sampleAspectRatio : String
  displayAspectRatio : String
  pixFmt : String
  level : Int
  colorRange : String
  colorSpace : String
  colorTransfer : String
  colorPrimaries : String
  chromaLocation : String
  fieldOrder : String
  refs : Int
  timeBase : String
  startPts : Int
  startTime : String
  channels : Int
  sampleRate : String
  bitRate : String
  disposition : List (String × Int)
  tags : List (String × String)
  sideDataList : List SideData
deriving Repr, DecidableEq

/-- Decoded ffprobe JSON document. -/
structure FfprobeData where
  format : FfFormat
  streams : List FfStream
deriving Repr, DecidableEq

/-- `ffmpeg.VideoTrackMetadata`. -/
structure VideoTrackMetadata where
  index : Int
  codecName : String
  codecLongName : String
  profile : String
  width : Int
  height : Int
  codedWidth : Int
  codedHeight : Int
  hasBFrames : Int
  sampleAspectRatio : String
  displayAspectRatio : String
  pixFmt : String
  level : Int
  colorRange : String
  colorSpace : String
  colorTransfer : String
  colorPrimaries : String
  chromaLocation : String
  fieldOrder : String
  refs : Int
  frameRate : String
  tags : List (String × String)
  disposition : List (String × Int)
  sideDataList : List SideData
deriving Repr, DecidableEq

/-- `ffmpeg.AudioTrackMetadata`. -/
structure AudioTrackMetadata where
  index : Int
  codec : String
  channels : Int
  sampleRate : String
  language : String
  bitRate : Int
  tags : List (String × String)
  disposition : List (String × Int)
deriving Repr, DecidableEq

/-- `ffmpeg.SubtitleTrackMetadata`. -/
structure SubtitleTrackMetadata where
  index : Int
  codecName : String
  codecLongName : String
  codecType : String
  tags : List (String × String)
  disposition : List (String × Int)
deriving Repr, DecidableEq

/-- `ffmpeg.MediaMetadata`: the normalized technical-metadata record. -/
structure MediaMetadata where
  filename : String
  formatName : String
  formatLongName : String
  duration : Time
  size : Int
  bitRate : Int
  probeScore : Int
  container : String
  codec : String
  resolutionWidth : Int
  resolutionHeight : Int
  frameRate : String
  audioTracks : List AudioTrackMetadata
  videoTracks : List VideoTrackMetadata
  subtitleTracks : List SubtitleTrackMetadata
  tags : List (String × String)
deriving Repr, DecidableEq

/-- Environment of Go standard-library numeric parsers used by the ffprobe
parser: `strconv.ParseFloat` on the duration (result already scaled to
ticks), `strconv.ParseInt` on the size and `strconv.Atoi` on bit rates.
`none` models a parse error; the Go functions then return a zero value,
which the embedded code keeps. -/
structure ParseEnv where
  parseFloatDur : String → Option Time
  parseIntSize : String → Option Int
  atoi : String → Option Int

/-- Association-list lookup modelling a Go map read with comma-ok. -/
def tagLookup (tags : List (String × String)) (k : String) : Option String :=
  (tags.find? fun t => t.1 = k).map (·.2)

/-- The video-track record built by the parse loop for a video stream. -/
def toVideoTrack (s : FfStream) : VideoTrackMetadata :=
  { index := s.index, codecName := s.codecName, codecLongName := s.codecLongName
    profile := s.profile, width := s.width, height := s.height
    codedWidth := s.codedWidth, codedHeight := s.codedHeight
    hasBFrames := s.hasBFrames, sampleAspectRatio := s.sampleAspectRatio
    displayAspectRatio := s.displayAspectRatio, pixFmt := s.pixFmt
    level := s.level, colorRange := s.colorRange, colorSpace := s.colorSpace
    colorTransfer := s.colorTransfer, colorPrimaries := s.colorPrimaries
    chromaLocation := s.chromaLocation, fieldOrder := s.fieldOrder
    refs := s.refs, frameRate := s.avgFrameRate, tags := s.tags
    disposition := s.disposition, sideDataList := s.sideDataList }

/-- The audio-track record built by the parse loop for an audio stream
(bit rate 0 when empty or unparseable; language from the `language` tag). -/
def toAudioTrack (env : ParseEnv) (s : FfStream) : AudioTrackMetadata :=
  let bitrate : Int := if s.bitRate = "" then 0 else (env.atoi s.bitRate).getD 0
  let base : AudioTrackMetadata :=
    { index := s.index, codec := s.codecName, channels := s.channels
      sampleRate := s.sampleRate, language := "", bitRate := bitrate
      tags := s.tags, disposition := s.disposition }
  match tagLookup s.tags "language" with
  | some lang => { base with language := lang }
  | none => base

/-- The subtitle-track record built by the parse loop. -/
def toSubtitleTrack (s : FfStream) : SubtitleTrackMetadata :=
  { index := s.index, codecName := s.codecName, codecLongName := s.codecLongName
    codecType := s.codecType, tags := s.tags, disposition := s.disposition }

/-- One iteration of the stream-dispatch loop of
`parseFFprobeJSONOutput`: video streams overwrite the top-level
convenience fields and append to the ordered video list; audio and
subtitle streams append to their lists; other types are skipped. -/
def dispatchStream (env : ParseEnv) (md : MediaMetadata) (s : FfStream) :
    MediaMetadata :=
  if s.codecType = "video" then
    { md with codec := s.codecName, resolutionWidth := s.width
              resolutionHeight := s.height, frameRate := s.avgFrameRate
              videoTracks := md.videoTracks ++ [toVideoTrack s] }
  else if s.codecType = "audio" then
    { md with audioTracks := md.audioTracks ++ [toAudioTrack env s] }
  else if s.codecType = "subtitle" then
    { md with subtitleTracks := md.subtitleTracks ++ [toSubtitleTrack s] }
  else md

/-- Embedding of `parseFFprobeJSONOutput` (extractor service): `none`
input models a `json.Unmarshal` failure and yields the wrapped error;
otherwise format-level numeric fields parse best-effort (zero on failure)
and every stream is dispatched by its declared codec type. -/
def parseFFprobeJSONOutput (env : ParseEnv) (doc : Option FfprobeData) :
    Except GoErr MediaMetadata :=
  match doc with
  | none => .error "failed to parse ffprobe output: unmarshal error"
  | some d =>
    let md0 : MediaMetadata :=
      { filename := "", formatName := d.format.formatName
        formatLongName := d.format.formatLongName
        duration := (env.parseFloatDur d.format.duration).getD 0
        size := (env.parseIntSize d.format.size).getD 0
        bitRate := (env.atoi d.format.bitRate).getD 0
        probeScore := d.format.probeScore
        container := d.format.formatName, codec := "", resolutionWidth := 0
        resolutionHeight := 0, frameRate := "", audioTracks := []
        videoTracks := [], subtitleTracks := [], tags := d.format.tags }
    .ok (d.streams.foldl (dispatchStream env) md0)

/-- Outcome of running the ffprobe subprocess (external): clean exit with
output, non-zero exit with partial output and stderr, or a failure to
execute at all.  The output bytes are carried as their unmarshal outcome. -/
inductive RunOutcome where
  | success (doc : Option FfprobeData)
  | exitError (doc : Option FfprobeData) (stderr : String)
  | execFailure
deriving Repr

/-- Embedding of `ffmpeg.RunFFprobe`: a non-zero exit returns the partial
output together with the wrapped exit error; an execution failure returns
no output and an error; a clean run returns the output with nil error. -/
def runFFprobe (run : RunOutcome) : Option (Option FfprobeData) × Option GoErr :=
  match run with
  | .success doc => (some doc, none)
  | .exitError doc stderr =>
    (some doc, some ("ffprobe command failed with stderr: " ++ stderr))
  | .execFailure => (none, some "ffprobe command failed: exec error")

/-- Embedding of the extractor service `Extract` (services/extractor): any
non-nil error from `RunFFprobe` — including the non-zero-exit case whose
soft-error handling below that early return is unreachable — returns a nil
record with a wrapped error; otherwise the output is parsed and the
metadata (with the filename stamped) is returned with a nil error. -/
def serviceExtract (env : ParseEnv) (run : RunOutcome) (filePath : String) :
    Option MediaMetadata × Option GoErr :=
  let (output, err) := runFFprobe run
  match err with
  | some e => (none, some ("failed to extract media metadata: " ++ e))
  | none =>
    match parseFFprobeJSONOutput env (output.getD none) with
    | .error e => (none, some e)
    | .ok md => (some { md with filename := filePath }, none)

/-! ## Entity model (entity package) -/

/-- `entity.LibraryItem`: the file-identity and technical base embedded in
Movie/Series/Season/Episode (gorm.Model ID plus the scanned fields; the
unread gorm timestamps are omitted). -/
structure LibraryItem where
  id : Nat
  libraryID : Nat
  dateAdded : Time
  filePath : String
  container : String
  codec : String
  resolutionWidth : Int
  resolutionHeight : Int
  audioChannels : Int
deriving Repr, DecidableEq

/-- `entity.Movie` (fields the scanner reads or writes; `ReleaseDate` is a
tick, `VoteAverage` is the float64 payload copied verbatim). -/
structure Movie where
  item : LibraryItem
  title : String
  originalTitle : String
  tmdbID : Int
  overview : String
  releaseDate : Time
  runtime : Int
  backdropPath : String
  posterPath : String
  voteAverage : Int
  voteCount : Int
  lastScanned : Time
deriving Repr, DecidableEq

/-- `entity.Series` (the air-day/air-time pointers are never touched by
the embedded code and are omitted). -/
structure Series where
  item : LibraryItem
  title : String
  originalTitle : String
  tmdbID : Nat
  overview : String
  firstAirDate : Time
  backdropPath : String
  posterPath : String
  voteAverage : Int
  voteCount : Int
  lastScanned : Time
deriving Repr, DecidableEq

/-- `entity.Season`. -/
structure Season where
  item : LibraryItem
  seriesID : Nat
  seasonNumber : Nat
  overview : String
  airDate : Time
  posterPath : String
  lastScanned : Time
deriving Repr, DecidableEq

/-- `entity.Episode`. -/
structure Episode where
  item : LibraryItem
  seriesID : Nat
  seasonID : Nat
  episodeNumber : Nat
  title : String
  overview : String
  airDate : Time
  stillPath : String
  lastScanned : Time
deriving Repr, DecidableEq

/-- `entity.LibraryPath`. -/
structure LibraryPath where
  libraryID : Nat
  path : String
  enabled : Bool
deriving Repr, DecidableEq

/-- `entity.LibraryType`. -/
inductive LibraryType where
  | movie
  | tv
deriving Repr, DecidableEq

/-- `entity.Library`. -/
structure Library where
  id : Nat
  name : String
  type : LibraryType
  description : String
  paths : List LibraryPath
  autoScan : Bool
  scanInterval : Time
  lastScanned : Time
deriving Repr, DecidableEq

/-- The persistent store: one table per entity plus per-table
auto-increment counters (gorm primary keys). -/
structure DB where
  movies : List Movie
  series : List Series
  seasons : List Season
  episodes : List Episode
  libraries : List Library
  nextMovieID : Nat
  nextSeriesID : Nat
  nextSeasonID : Nat
  nextEpisodeID : Nat
deriving Repr, DecidableEq

/-! ## Repository layer (repository / persistence packages)

A gorm `First` call either hits a connection fault (injected through a
boolean), finds the first matching row in primary-key order, or reports
`gorm.ErrRecordNotFound`.  Each embedded finder translates the source's
branches on that outcome; the not-found contract of each finder therefore
comes from the source, not from the spec. -/

/-- Outcome of a gorm `First` query over the matching rows. -/
inductive GormRes (α : Type) where
  | found (a : α)
  | notFound
  | dbErr
deriving Repr

/-- gorm `First` on the rows matching a condition (rows are kept in
primary-key order), with an injected connection fault. -/
def gormFirst {α : Type} (fault : Bool) (rows : List α) : GormRes α :=
  if fault then .dbErr
  else
    match rows with
    | [] => .notFound
    | r :: _ => .found r

/-- Embedding of `movieRepository.FindByPath`: not-found is nil-nil. -/
def movieRepoFindByPath (fault : Bool) (db : DB) (path : String) :
    Except GoErr (Option Movie) :=
  match gormFirst fault (db.movies.filter fun m => m.item.filePath = path) with
  | .found m => .ok (some m)
  | .notFound => .ok none
  | .dbErr => .error "failed to find movie by path: db error"

/-- Embedding of `movieRepository.FindByID`: id 0 is rejected, and a
missing row returns a wrapped not-found ERROR (not nil-nil). -/
def movieRepoFindByID (fault : Bool) (db : DB) (id : Nat) :
    Except GoErr (Option Movie) :=
  if id = 0 then .error "invalid movie ID: bad request"
  else
    match gormFirst fault (db.movies.filter fun m => m.item.id = id) with
    | .found m => .ok (some m)
    | .notFound => .error "movie with ID not found: not found"
    | .dbErr => .error "database error finding movie: db error"

/-- Embedding of `seriesRepository.FindByID`: a PRIMARY-KEY lookup;
not-found is nil-nil. -/
def seriesRepoFindByID (fault : Bool) (db : DB) (id : Nat) :
    Except GoErr (Option Series) :=
  match gormFirst fault (db.series.filter fun s => s.item.id = id) with
  | .found s => .ok (some s)
  | .notFound => .ok none
  | .dbErr => .error "failed to find show by id: db error"

/-- Embedding of `seasonRepository.FindSeasonByNumber`: lookup by
(series id, season number); not-found is nil-nil. -/
def seasonRepoFindSeasonByNumber (fault : Bool) (db : DB) (showID : Nat)
    (seasonNumber : Nat) : Except GoErr (Option Season) :=
  match gormFirst fault (db.seasons.filter fun s =>
      s.seriesID = showID ∧ s.seasonNumber = seasonNumber) with
  | .found s => .ok (some s)
  | .notFound => .ok none
  | .dbErr => .error "failed to find season by number: db error"

/-- Embedding of `episodeRepository.FindByPath`: not-found is nil-nil. -/
def episodeRepoFindByPath (fault : Bool) (db : DB) (path : String) :
    Except GoErr (Option Episode) :=
  match gormFirst fault (db.episodes.filter fun e => e.item.filePath = path) with
  | .found e => .ok (some e)
  | .notFound => .ok none
  | .dbErr => .error "failed to find episode with path: db error"

/-- Embedding of `episodeRepository.FindEpisodeByNumber`: two gorm queries
(season by (series id, season number), then episode by (season id, episode
number)); both not-found branches are nil-nil. -/
def episodeRepoFindEpisodeByNumber (fault1 fault2 : Bool) (db : DB)
    (showID seasonNumber episodeNumber : Nat) : Except GoErr (Option Episode) :=
  match gormFirst fault1 (db.seasons.filter fun s =>
      s.seriesID = showID ∧ s.seasonNumber = seasonNumber) with
  | .dbErr => .error "failed to find season id: db error"
  | .notFound => .ok none
  | .found season =>
    match gormFirst fault2 (db.episodes.filter fun e =>
        e.seasonID = season.item.id ∧ e.episodeNumber = episodeNumber) with
    | .found e => .ok (some e)
    | .notFound => .ok none
    | .dbErr => .error "failed to get episode: db error"

/-- gorm `Create` for a movie: assigns the next primary key and appends
(the Returning clause populates the entity's id). -/
def dbCreateMovie (db : DB) (m : Movie) : DB × Movie :=
  let stored := { m with item := { m.item with id := db.nextMovieID } }
  ({ db with movies := db.movies ++ [stored], nextMovieID := db.nextMovieID + 1 },
   stored)

/-- gorm `Save` for a movie: replace the row with the same primary key. -/
def dbSaveMovie (db : DB) (m : Movie) : DB :=
  { db with movies := db.movies.map fun x => if x.item.id = m.item.id then m else x }

/-- gorm `Create` for a series. -/
def dbCreateSeries (db : DB) (s : Series) : DB × Series :=
  let stored := { s with item := { s.item with id := db.nextSeriesID } }
  ({ db with series := db.series ++ [stored], nextSeriesID := db.nextSeriesID + 1 },
   stored)

/-- gorm `Save` for a series. -/
def dbSaveSeries (db : DB) (s : Series) : DB :=
  { db with series := db.series.map fun x => if x.item.id = s.item.id then s else x }

/-- gorm `Create` for a season. -/
def dbCreateSeason (db : DB) (s : Season) : DB × Season :=
  let stored := { s with item := { s.item with id := db.nextSeasonID } }
  ({ db with seasons := db.seasons ++ [stored], nextSeasonID := db.nextSeasonID + 1 },
   stored)

/-- gorm `Save` for a season. -/
def dbSaveSeason (db : DB) (s : Season) : DB :=
  { db with seasons := db.seasons.map fun x => if x.item.id = s.item.id then s else x }

/-- gorm `Create` for an episode. -/
def dbCreateEpisode (db : DB) (e : Episode) : DB × Episode :=
  let stored := { e with item := { e.item with id := db.nextEpisodeID } }
  ({ db with episodes := db.episodes ++ [stored],
             nextEpisodeID := db.nextEpisodeID + 1 }, stored)

/-- gorm `Save` for an episode. -/
def dbSaveEpisode (db : DB) (e : Episode) : DB :=
  { db with episodes := db.episodes.map fun x => if x.item.id = e.item.id then e else x }

/-- gorm `Save` for a library row (`libraryRepository.UpdateLibrary`). -/
def dbSaveLibrary (db : DB) (lib : Library) : DB :=
  { db with libraries := db.libraries.map fun x => if x.id = lib.id then lib else x }

/-! ## TMDb catalog result records (metadata package, fields the scanner
reads; unread decode-only fields are omitted) -/

/-- `metadata.Movie` search result entry. -/
structure TmdbMovie where
  id : Int
  title : String
  originalTitle : String
  overview : String
  releaseDate : String
  backdropPath : Option String
  posterPath : Option String
  voteAverage : Int
  voteCount : Int
deriving Repr, DecidableEq

/-- `metadata.Series` search result entry. -/
structure TmdbSeries where
  id : Nat
  name : String
  originalName : String
  overview : String
  firstAirDate : String
  backdropPath : Option String
  posterPath : Option String
  voteAverage : Int
  voteCount : Int
deriving Repr, DecidableEq

/-! ## Scanner service (scanner package)

The scanner's collaborators are an environment: a single `now` tick for
the scan, an injected database-fault schedule indexed by a repository-call
counter, the per-file ffprobe outcome, the TMDb client (`none` models a
search error, `some results` a response page), the stdlib date parser, and
the directory tree walked by `filepath.Walk` in its lexical order.  The
state carries the store, the repository-call counter and the observable
trace of catalog queries. -/

/-- Observable catalog queries issued by the reconciler. -/
inductive Ev where
  | catalogMovieSearch (title year : String)
  | catalogTVSearch (title : String)
deriving Repr, DecidableEq

/-- An entry met by the directory walk. -/
inductive FsEntry where
  | file (path : String)
  | dir (path : String)
deriving Repr, DecidableEq

/-- Path of a walk entry. -/
def entryPath : FsEntry → String
  | .file p => p
  | .dir p => p

/-- Directory test of a walk entry (`info.IsDir()`). -/
def entryIsDir : FsEntry → Bool
  | .dir _ => true
  | .file _ => false

/-- Scanner environment (external collaborators). -/
structure ScanEnv where
  now : Time
  dbFault : Nat → Bool
  probe : String → RunOutcome
  parse : ParseEnv
  searchMovie : String → String → Option (List TmdbMovie)
  searchTV : String → Option (List TmdbSeries)
  parseDate : String → Option Time
  fs : String → List FsEntry

/-- Scanner state: the store, the repository-call counter feeding the
fault schedule, and the catalog-query trace. -/
structure St where
  db : DB
  opIdx : Nat
  events : List Ev
deriving Repr, DecidableEq

/-- Result of reconciling one file: clean return, returned error, or a Go
runtime panic (nil-pointer dereference). -/
inductive ProcRes where
  | ok
  | err (e : GoErr)
  | crashed
deriving Repr, DecidableEq

/-- Consume one repository-call fault index. -/
def opFault (env : ScanEnv) (st : St) : St × Bool :=
  ({ st with opIdx := st.opIdx + 1 }, env.dbFault st.opIdx)

/-- Stateful `movieRepo.FindByPath`. -/
def stFindMovieByPath (env : ScanEnv) (st : St) (p : String) :
    St × Except GoErr (Option Movie) :=
  let (st1, f) := opFault env st
  (st1, movieRepoFindByPath f st.db p)

/-- Stateful `movieRepo.Update` (gorm `Save`). -/
def stSaveMovie (env : ScanEnv) (st : St) (m : Movie) : St × Option GoErr :=
  let (st1, f) := opFault env st
  if f then (st1, some "failed to update movie: db error")
  else ({ st1 with db := dbSaveMovie st1.db m }, none)

/-- Stateful `movieRepo.Store` (gorm `Create` with Returning). -/
def stCreateMovie (env : ScanEnv) (st : St) (m : Movie) :
    St × Except GoErr Movie :=
  let (st1, f) := opFault env st
  if f then (st1, .error "failed to store movie: db error")
  else
    let (db1, stored) := dbCreateMovie st1.db m
    ({ st1 with db := db1 }, .ok stored)

/-- Stateful `episodeRepo.FindByPath`. -/
def stFindEpisodeByPath (env : ScanEnv) (st : St) (p : String) :
    St × Except GoErr (Option Episode) :=
  let (st1, f) := opFault env st
  (st1, episodeRepoFindByPath f st.db p)

/-- Stateful `episodeRepo.UpdateEpisode`. -/
def stSaveEpisode (env : ScanEnv) (st : St) (e : Episode) : St × Option GoErr :=
  let (st1, f) := opFault env st
  if f then (st1, some "failed to update episode: db error")
  else ({ st1 with db := dbSaveEpisode st1.db e }, none)

/-- Stateful `episodeRepo.AddEpisode`. -/
def stCreateEpisode (env : ScanEnv) (st : St) (e : Episode) :
    St × Except GoErr Episode :=
  let (st1, f) := opFault env st
  if f then (st1, .error "failed to add episode: db error")
  else
    let (db1, stored) := dbCreateEpisode st1.db e
    ({ st1 with db := db1 }, .ok stored)

/-- Stateful `seriesRepo.FindByID` (primary-key lookup). -/
def stFindSeriesByID (env : ScanEnv) (st : St) (id : Nat) :
    St × Except GoErr (Option Series) :=
  let (st1, f) := opFault env st
  (st1, seriesRepoFindByID f st.db id)

/-- Stateful `seriesRepo.Store`. -/
def stCreateSeries (env : ScanEnv) (st : St) (s : Series) :
    St × Except GoErr Series :=
  let (st1, f) := opFault env st
  if f then (st1, .error "failed to create show: db error")
  else
    let (db1, stored) := dbCreateSeries st1.db s
    ({ st1 with db := db1 }, .ok stored)

/-- Stateful `seriesRepo.Update`. -/
def stSaveSeries (env : ScanEnv) (st : St) (s : Series) : St × Option GoErr :=
  let (st1, f) := opFault env st
  if f then (st1, some "failed to update show: db error")
  else ({ st1 with db := dbSaveSeries st1.db s }, none)

/-- Stateful `seasonRepo.FindSeasonByNumber`. -/
def stFindSeasonByNumber (env : ScanEnv) (st : St) (showID n : Nat) :
    St × Except GoErr (Option Season) :=
  let (st1, f) := opFault env st
  (st1, seasonRepoFindSeasonByNumber f st.db showID n)

/-- Stateful `seasonRepo.AddSeason`. -/
def stCreateSeason (env : ScanEnv) (st : St) (s : Season) :
    St × Except GoErr Season :=
  let (st1, f) := opFault env st
  if f then (st1, .error "failed to add season: db error")
  else
    let (db1, stored) := dbCreateSeason st1.db s
    ({ st1 with db := db1 }, .ok stored)

/-- Stateful `seasonRepo.UpdateSeason`. -/
def stSaveSeason (env : ScanEnv) (st : St) (s : Season) : St × Option GoErr :=
  let (st1, f) := opFault env st
  if f then (st1, some "failed to update season: db error")
  else ({ st1 with db := dbSaveSeason st1.db s }, none)

/-- Stateful `libraryRepo.UpdateLibrary`. -/
def stSaveLibrary (env : ScanEnv) (st : St) (lib : Library) : St × Option GoErr :=
  let (st1, f) := opFault env st
  if f then (st1, some "failed to update library: db error")
  else ({ st1 with db := dbSaveLibrary st1.db lib }, none)

/-- The Movie entity constructed by `processMovieFile` step 5 for a new
file, following the source's assignment order: technical fields and
timestamps always, catalog fields when a match exists, else the
filename-derived title. -/
def buildMovie (env : ScanEnv) (lib : Library) (filePath : String)
    (fm : MediaMetadata) (tmdbMovie : Option TmdbMovie) (movieInfo : MediaInfo) :
    Movie :=
  let base : Movie :=
    { item := { id := 0, libraryID := lib.id, dateAdded := env.now
                filePath := filePath, container := fm.container
                codec := fm.codec, resolutionWidth := fm.resolutionWidth
                resolutionHeight := fm.resolutionHeight, audioChannels := 0 }
      title := "", originalTitle := "", tmdbID := 0, overview := ""
      releaseDate := 0, runtime := 0, backdropPath := "", posterPath := ""
      voteAverage := 0, voteCount := 0, lastScanned := env.now }
  let base :=
    match fm.audioTracks with
    | a :: _ => { base with item := { base.item with audioChannels := a.channels } }
    | [] => base
  match tmdbMovie with
  | some tm =>
    let m := { base with title := tm.title, originalTitle := tm.originalTitle
                         tmdbID := tm.id, overview := tm.overview }
    let m :=
      if tm.releaseDate ≠ "" then
        match env.parseDate tm.releaseDate with
        | some d => { m with releaseDate := d }
        | none => m
      else m
    let m := match tm.backdropPath with
      | some b => { m with backdropPath := b }
      | none => m
    let m := match tm.posterPath with
      | some p => { m with posterPath := p }
      | none => m
    { m with voteAverage := tm.voteAverage, voteCount := tm.voteCount }
  | none => { base with title := movieInfo.title }

/-- Embedding of `processMovieFile`: path short-circuit (update-only),
else best-effort extraction, filename parse, catalog search, entity
construction (a nil metadata record is dereferenced here — a panic) and
create. -/
def processMovieFile (env : ScanEnv) (lib : Library) (filePath : String)
    (st : St) : St × ProcRes :=
  match stFindMovieByPath env st filePath with
  | (st1, .error e) => (st1, .err ("error checking for existing movie: " ++ e))
  | (st1, .ok (some existing)) =>
    match stSaveMovie env st1 { existing with lastScanned := env.now } with
    | (st2, some e) => (st2, .err e)
    | (st2, none) => (st2, .ok)
  | (st1, .ok none) =>
    let fileMeta := (serviceExtract env.parse (env.probe filePath) filePath).1
    let movieInfo := extractMovieInfo filePath
    let st2 := { st1 with
      events := st1.events ++ [.catalogMovieSearch movieInfo.title movieInfo.year] }
    let tmdbMovie : Option TmdbMovie :=
      match env.searchMovie movieInfo.title movieInfo.year with
      | some (m :: _) => some m
      | _ => none
    match fileMeta with
    | none => (st2, .crashed)
    | some fm =>
      match stCreateMovie env st2 (buildMovie env lib filePath fm tmdbMovie movieInfo) with
      | (st3, .error e) => (st3, .err e)
      | (st3, .ok _) => (st3, .ok)

/-- The Series entity constructed by `processSeriesFile` step 5.1 when no
existing series was found: filename title always, catalog fields when a
match exists. -/
def buildSeries (env : ScanEnv) (lib : Library) (tvInfo : TvShowInfo)
    (tmdbShow : Option TmdbSeries) : Series :=
  let base : Series :=
    { item := { id := 0, libraryID := lib.id, dateAdded := env.now
                filePath := "", container := "", codec := ""
                resolutionWidth := 0, resolutionHeight := 0, audioChannels := 0 }
      title := tvInfo.title, originalTitle := "", tmdbID := 0, overview := ""
      firstAirDate := 0, backdropPath := "", posterPath := ""
      voteAverage := 0, voteCount := 0, lastScanned := env.now }
  match tmdbShow with
  | none => base
  | some sh =>
    let s := { base with title := sh.name, originalTitle := sh.originalName
                         tmdbID := sh.id, overview := sh.overview }
    let s :=
      if sh.firstAirDate ≠ "" then
        { s with firstAirDate := (env.parseDate sh.firstAirDate).getD 0 }
      else s
    let s := match sh.backdropPath with
      | some b => { s with backdropPath := b }
      | none => s
    let s := match sh.posterPath with
      | some p => { s with posterPath := p }
      | none => s
    { s with voteAverage := sh.voteAverage, voteCount := sh.voteCount }

/-- Steps 5.3 of `processSeriesFile`: build and create the Episode (the
nil-metadata dereference happens here). -/
def withSeason (env : ScanEnv) (lib : Library) (filePath : String)
    (tvInfo : TvShowInfo) (fileMeta : Option MediaMetadata) (st : St)
    (series : Series) (season : Season) : St × ProcRes :=
  match fileMeta with
  | none => (st, .crashed)
  | some fm =>
    let ep : Episode :=
      { item := { id := 0, libraryID := lib.id, dateAdded := env.now
                  filePath := filePath, container := fm.container
                  codec := fm.codec, resolutionWidth := fm.resolutionWidth
                  resolutionHeight := fm.resolutionHeight, audioChannels := 0 }
        seriesID := series.item.id, seasonID := season.item.id
        episodeNumber := tvInfo.episode
        title := "Episode " ++ toString tvInfo.episode, overview := ""
        airDate := 0, stillPath := "", lastScanned := env.now }
    let ep :=
      match fm.audioTracks with
      | a :: _ => { ep with item := { ep.item with audioChannels := a.channels } }
      | [] => ep
    match stCreateEpisode env st ep with
    | (st1, .error e) => (st1, .err e)
    | (st1, .ok _) => (st1, .ok)

/-- Steps 5.2–5.3 of `processSeriesFile`: find-or-create the Season (a
found season gets its lastScanned refreshed; the UpdateSeason error is
discarded by the source), then the Episode. -/
def withSeries (env : ScanEnv) (lib : Library) (filePath : String)
    (tvInfo : TvShowInfo) (fileMeta : Option MediaMetadata) (st : St)
    (series : Series) : St × ProcRes :=
  match stFindSeasonByNumber env st series.item.id tvInfo.season with
  | (st1, .error e) => (st1, .err ("error checking for existing season: " ++ e))
  | (st1, .ok none) =>
    let season0 : Season :=
      { item := { id := 0, libraryID := lib.id, dateAdded := env.now
                  filePath := "", container := "", codec := ""
                  resolutionWidth := 0, resolutionHeight := 0, audioChannels := 0 }
        seriesID := series.item.id, seasonNumber := tvInfo.season
        overview := "", airDate := 0, posterPath := "", lastScanned := 0 }
    match stCreateSeason env st1 season0 with
    | (st2, .error e) => (st2, .err e)
    | (st2, .ok season) => withSeason env lib filePath tvInfo fileMeta st2 series season
  | (st1, .ok (some season0)) =>
    let season := { season0 with lastScanned := env.now }
    let (st2, _) := stSaveSeason env st1 season
    withSeason env lib filePath tvInfo fileMeta st2 series season

/-- Embedding of `processSeriesFile`: unparseable season/episode is
skipped with a warning (nothing persisted); else path short-circuit on the
episode, best-effort extraction, catalog search for the show, find-or-
create of Series (primary-key lookup with the TMDb id; the Update error of
a found series is discarded by the source), Season and Episode. -/
def processSeriesFile (env : ScanEnv) (lib : Library) (filePath : String)
    (st : St) : St × ProcRes :=
  let tvInfo := extractTVShowInfo filePath
  if tvInfo.season = 0 ∨ tvInfo.episode = 0 then (st, .ok)
  else
    match stFindEpisodeByPath env st filePath with
    | (st1, .error e) => (st1, .err ("error checking for existing episode: " ++ e))
    | (st1, .ok (some existing)) =>
      match stSaveEpisode env st1 { existing with lastScanned := env.now } with
      | (st2, some e) => (st2, .err e)
      | (st2, none) => (st2, .ok)
    | (st1, .ok none) =>
      let fileMeta := (serviceExtract env.parse (env.probe filePath) filePath).1
      let st2 := { st1 with events := st1.events ++ [.catalogTVSearch tvInfo.title] }
      let tmdbShow : Option TmdbSeries :=
        match env.searchTV tvInfo.title with
        | some (s :: _) => some s
        | _ => none
      let lookup : St × Except GoErr (Option Series) :=
        match tmdbShow with
        | some sh => stFindSeriesByID env st2 sh.id
        | none => (st2, .ok none)
      match lookup with
      | (st3, .error e) => (st3, .err ("error checking for existing series: " ++ e))
      | (st3, .ok none) =>
        match stCreateSeries env st3 (buildSeries env lib tvInfo tmdbShow) with
        | (st4, .error e) => (st4, .err e)
        | (st4, .ok series) =>
          withSeries env lib filePath tvInfo fileMeta st4 series
      | (st3, .ok (some series0)) =>
        let series := { series0 with lastScanned := env.now }
        let (st4, _) := stSaveSeries env st3 series
        withSeries env lib filePath tvInfo fileMeta st4 series

/-- Embedding of `processFile`: series-vs-movie dispatch on
`isLikelyTVFile`. -/
def processFile (env : ScanEnv) (lib : Library) (filePath : String) (st : St) :
    St × ProcRes :=
  if isLikelyTVFile filePath then processSeriesFile env lib filePath st
  else processMovieFile env lib filePath st

/-- The `filepath.Walk` loop body of `scanPath`: directories and non-video
files are skipped; a video file is reconciled, and a non-nil return from
the callback ABORTS the remaining walk of this root (Go `filepath.Walk`
semantics); a panic unwinds.  The trace records the files handed to
`processFile`. -/
def walkGo (env : ScanEnv) (lib : Library) :
    List FsEntry → St → List String → St × List String × ProcRes
  | [], st, tr => (st, tr, .ok)
  | e :: rest, st, tr =>
    if entryIsDir e || ! isVideoFile (entryPath e) then walkGo env lib rest st tr
    else
      match processFile env lib (entryPath e) st with
      | (st1, .ok) => walkGo env lib rest st1 (tr ++ [entryPath e])
      | (st1, .err er) => (st1, tr ++ [entryPath e], .err er)
      | (st1, .crashed) => (st1, tr ++ [entryPath e], .crashed)

/-- Embedding of `scanPath`: walk the root in lexical order. -/
def scanPath (env : ScanEnv) (lib : Library) (path : String) (st : St) :
    St × List String × ProcRes :=
  walkGo env lib (env.fs path) st []

/-- The path loop of `ScanLibrary`: disabled paths are skipped; a path
error is logged and the remaining paths continue; a panic unwinds. -/
def scanPaths (env : ScanEnv) (lib : Library) :
    List LibraryPath → St → St × List String × Bool
  | [], st => (st, [], false)
  | p :: ps, st =>
    if ! p.enabled then scanPaths env lib ps st
    else
      match scanPath env lib p.path st with
      | (st1, tr, .crashed) => (st1, tr, true)
      | (st1, tr, _) =>
        let (st2, tr2, c) := scanPaths env lib ps st1
        (st2, tr ++ tr2, c)

/-- Result of `ScanLibrary`: final state, trace of reconciled files, the
mutated library value handed to `UpdateLibrary` (`none` after a panic) and
the function's return value. -/
structure ScanOut where
  st : St
  trace : List String
  lib : Option Library
  res : Option GoErr
  crashed : Bool
deriving Repr, DecidableEq

/-- Embedding of `ScanLibrary`: scan every enabled path (path errors only
logged), then stamp the library's lastScanned and persist it. -/
def scanLibrary (env : ScanEnv) (lib : Library) (st : St) : ScanOut :=
  match scanPaths env lib lib.paths st with
  | (st1, tr, true) =>
    { st := st1, trace := tr, lib := none, res := none, crashed := true }
  | (st1, tr, false) =>
    let lib1 := { lib with lastScanned := env.now }
    let (st2, uerr) := stSaveLibrary env st1 lib1
    { st := st2, trace := tr, lib := some lib1, res := uerr, crashed := false }

/-! ## Scheduler (scheduler package) -/

/-- `entity.TaskStatus`. -/
inductive TaskStatus where
  | idle
  | running
  | failed
deriving Repr, DecidableEq

/-- `entity.ScheduledTask` (gorm timestamps omitted). -/
structure ScheduledTask where
  id : Nat
  name : String
  taskType : String
  description : String
  enabled : Bool
  interval : String
  lastRun : Time
  nextRun : Time
  status : TaskStatus
  config : String
deriving Repr, DecidableEq

/-- Scheduler environment for one firing: the stdlib duration parser, the
executor's return value, the success of the two UpdateTask persists, and
the two `time.Now()` reads (before and after the executor). -/
structure SchedEnv where
  parseDuration : String → Option Time
  execResult : Option GoErr
  update1Ok : Bool
  update2Ok : Bool
  now1 : Time
  now2 : Time

/-- Observable actions of one scheduler firing, in order. -/
inductive SchedEvent where
  | persistAttempt (t : ScheduledTask) (ok : Bool)
  | executorInvoked (config : String)
deriving Repr, DecidableEq

/-- Embedding of `scheduleTask`'s interval validation: a malformed
interval string is rejected at scheduling time, so a task never fires
unless its interval parses. -/
def scheduleTaskCheck (env : SchedEnv) (task : ScheduledTask) : Option GoErr :=
  match env.parseDuration task.interval with
  | none => some ("invalid interval for task " ++ task.name)
  | some _ => none

/-- Embedding of `taskWrapper.Execute`: mark running (lastRun = now) and
persist BEFORE invoking the executor (a failed persist aborts); invoke the
executor; recompute the status (idle on success, failed on error); parse
the interval and advance nextRun; persist again; return the executor's
error. -/
def taskWrapperExecute (env : SchedEnv) (task : ScheduledTask) :
    ScheduledTask × List SchedEvent × Option GoErr :=
  let t1 := { task with status := .running, lastRun := env.now1 }
  if ¬ env.update1Ok then
    (t1, [.persistAttempt t1 false], some "failed to update task status: db error")
  else
    let ev1 : SchedEvent := .persistAttempt t1 true
    let ev2 : SchedEvent := .executorInvoked task.config
    let err := env.execResult
    let t2 :=
      match err with
      | some _ => { t1 with status := .failed }
      | none => { t1 with status := .idle }
    match env.parseDuration task.interval with
    | none =>
      (t2, [ev1, ev2], some "failed to parse task interval: parse error")
    | some d =>
      let t3 := { t2 with nextRun := env.now2 + d }
      let ev3 : SchedEvent := .persistAttempt t3 env.update2Ok
      if ¬ env.update2Ok then
        (t3, [ev1, ev2, ev3], some "failed to update task status after execution: db error")
      else
        (t3, [ev1, ev2, ev3], err)

/-! ## Concrete fixtures used by witnesses and counterexamples -/

/-- A numeric-parser environment in which every stdlib parse fails (the
embedded code then keeps zero values). -/
def parseEnv0 : ParseEnv :=
  { parseFloatDur := fun _ => none, parseIntSize := fun _ => none
    atoi := fun _ => none }

/-- A stream with all fields at their zero values. -/
def ffStream0 : FfStream :=
  { index := 0, codecName := "", codecType := "", codecLongName := ""
    profile := "", width := 0, height := 0, codedWidth := 0, codedHeight := 0
    hasBFrames := 0, avgFrameRate := "", sampleAspectRatio := ""
    displayAspectRatio := "", pixFmt := "", level := 0, colorRange := ""
    colorSpace := "", colorTransfer := "", colorPrimaries := ""
    chromaLocation := "", fieldOrder := "", refs := 0, timeBase := ""
    startPts := 0, startTime := "", channels := 0, sampleRate := ""
    bitRate := "", disposition := [], tags := [], sideDataList := [] }

/-- A format block with unparseable numeric fields. -/
def ffFormat0 : FfFormat :=
  { filename := "", formatName := "matroska", formatLongName := ""
    duration := "n/a", size := "n/a", bitRate := "n/a", probeScore := 100
    tags := [] }

/-- First video stream of the two-video fixture. -/
def streamVidA : FfStream :=
  { ffStream0 with codecType := "video", codecName := "h264", width := 1920
                   height := 1080, avgFrameRate := "24/1" }

/-- Second video stream of the two-video fixture. -/
def streamVidB : FfStream :=
  { ffStream0 with index := 1, codecType := "video", codecName := "hevc"
                   width := 1280, height := 720, avgFrameRate := "30/1" }

/-- An audio stream. -/
def streamAud : FfStream :=
  { ffStream0 with index := 2, codecType := "audio", codecName := "aac"
                   channels := 6 }

/-- A probe document with one video and one audio stream. -/
def docOneVideo : FfprobeData := { format := ffFormat0, streams := [streamVidA, streamAud] }

/-- A probe document declaring two video streams. -/
def docTwoVideos : FfprobeData :=
  { format := ffFormat0, streams := [streamVidA, streamVidB, streamAud] }

/-- An empty store. -/
def dbEmpty : DB :=
  { movies := [], series := [], seasons := [], episodes := [], libraries := []
    nextMovieID := 1, nextSeriesID := 1, nextSeasonID := 1, nextEpisodeID := 1 }

/-- A benign scanner environment: no database faults, clean probes, empty
catalog responses. -/
def env0 : ScanEnv :=
  { now := 100, dbFault := fun _ => false
    probe := fun _ => .success (some docOneVideo), parse := parseEnv0
    searchMovie := fun _ _ => some [], searchTV := fun _ => some []
    parseDate := fun _ => none, fs := fun _ => [] }

/-- A movie library with no paths. -/
def lib0 : Library :=
  { id := 1, name := "Movies", type := .movie, description := "", paths := []
    autoScan := true, scanInterval := 0, lastScanned := 0 }

/-- Empty scanner state. -/
def st0 : St := { db := dbEmpty, opIdx := 0, events := [] }

/-- A movie already persisted under "/m/Inception (2010).mkv". -/
def movie0 : Movie :=
  { item := { id := 1, libraryID := 1, dateAdded := 5
              filePath := "/m/Inception (2010).mkv", container := "matroska"
              codec := "h264", resolutionWidth := 1920, resolutionHeight := 1080
              audioChannels := 6 }
    title := "Inception", originalTitle := "Inception", tmdbID := 27205
    overview := "", releaseDate := 0, runtime := 148, backdropPath := ""
    posterPath := "", voteAverage := 8, voteCount := 1000, lastScanned := 5 }

/-- State holding only `movie0`. -/
def stM : St :=
  { db := { dbEmpty with movies := [movie0], nextMovieID := 2 }, opIdx := 0
    events := [] }

/-- A persisted series whose PRIMARY key is 1 and whose TMDb catalog id is
42. -/
def series1 : Series :=
  { item := { id := 1, libraryID := 1, dateAdded := 5, filePath := ""
              container := "", codec := "", resolutionWidth := 0
              resolutionHeight := 0, audioChannels := 0 }
    title := "Alpha", originalTitle := "Alpha", tmdbID := 42, overview := ""
    firstAirDate := 0, backdropPath := "", posterPath := "", voteAverage := 7
    voteCount := 10, lastScanned := 5 }

/-- The TMDb search result for the show, with catalog id 42. -/
def show42 : TmdbSeries :=
  { id := 42, name := "Alpha", originalName := "Alpha", overview := ""
    firstAirDate := "", backdropPath := none, posterPath := none
    voteAverage := 7, voteCount := 10 }

/-- State holding only `series1`. -/
def st3 : St :=
  { db := { dbEmpty with series := [series1], nextSeriesID := 2 }, opIdx := 0
    events := [] }

/-- Environment whose TV search returns the catalog match with id 42. -/
def env3 : ScanEnv := { env0 with searchTV := fun _ => some [show42] }

/-- Environment whose probe exits non-zero with parseable partial output. -/
def env4 : ScanEnv :=
  { env0 with probe := fun _ => .exitError (some docOneVideo) "boom" }

/-- A TV library used with `env3`. -/
def libTV : Library :=
  { id := 1, name := "Shows", type := .tv, description := "", paths := []
    autoScan := true, scanInterval := 0, lastScanned := 0 }

/-- A one-path movie library for the scan-isolation scenario. -/
def lib1 : Library :=
  { id := 1, name := "Movies", type := .movie, description := ""
    paths := [{ libraryID := 1, path := "/media", enabled := true }]
    autoScan := true, scanInterval := 0, lastScanned := 0 }

/-- Environment for the scan-isolation scenario: two video files under the
single root, and the FIRST repository call (the FindByPath of file A)
faults. -/
def env1 : ScanEnv :=
  { env0 with
    dbFault := fun i => i == 0
    fs := fun _ => [.file "/media/A.mkv", .file "/media/B.mkv"] }

/-- State for the scan-isolation scenario. -/
def st1fix : St :=
  { db := { dbEmpty with libraries := [lib1] }, opIdx := 0, events := [] }

/-- Scheduler environment for the witness: "24h" parses to 864000 ticks,
the executor fails, both persists succeed. -/
def env8 : SchedEnv :=
  { parseDuration := fun s => if s = "24h" then some 864000 else none
    execResult := some "boom", update1Ok := true, update2Ok := true
    now1 := 10, now2 := 20 }

/-- A scheduled scan task with interval "24h". -/
def task8 : ScheduledTask :=
  { id := 1, name := "scan", taskType := "scan", description := ""
    enabled := true, interval := "24h", lastRun := 0, nextRun := 0
    status := .idle, config := "" }

/-- Status recomputed from the executor result (idle on success, failed on
error), as assigned by `taskWrapper.Execute`. -/
def postStatus (err : Option GoErr) : TaskStatus :=
  match err with
  | some _ => .failed
  | none => .idle

/-! ## Helper lemmas -/

/-- The video streams of a probe document, in input order. -/
def videoStreamsOf (d : FfprobeData) : List FfStream :=
  d.streams.filter fun s => s.codecType = "video"

theorem isPre_map (f : Char → Char) :
    ∀ p s : List Char, isPre p s = true → isPre (p.map f) (s.map f) = true := by
  intro p
  induction p with
  | nil => intro s _; simp [isPre]
  | cons a as ih =>
    intro s h
    cases s with
    | nil => simp [isPre] at h
    | cons b bs =>
      simp only [isPre, Bool.and_eq_true, decide_eq_true_eq] at h
      simp only [List.map, isPre, Bool.and_eq_true, decide_eq_true_eq]
      exact ⟨congrArg f h.1, ih bs h.2⟩

theorem containsSeq_map (f : Char → Char) :
    ∀ s pat : List Char, containsSeq s pat = true →
      containsSeq (s.map f) (pat.map f) = true := by
  intro s
  induction s with
  | nil =>
    intro pat h
    simp only [containsSeq, List.isEmpty_iff] at h
    subst h
    simp [containsSeq]
  | cons c cs ih =>
    intro pat h
    simp only [containsSeq, Bool.or_eq_true] at h
    simp only [List.map, containsSeq, Bool.or_eq_true]
    cases h with
    | inl h => exact Or.inl (isPre_map f pat (c :: cs) h)
    | inr h => exact Or.inr (ih pat h)

theorem strContains_lower {s pat : String} (h : strContains s pat = true) :
    strContains (lowerStr s) (lowerStr pat) = true :=
  containsSeq_map lowerChar s.data pat.data h

theorem dispatch_video_fields (env : ParseEnv) (md : MediaMetadata)
    (s : FfStream) (h : s.codecType = "video") :
    (dispatchStream env md s).codec = s.codecName ∧
    (dispatchStream env md s).resolutionWidth = s.width ∧
    (dispatchStream env md s).resolutionHeight = s.height ∧
    (dispatchStream env md s).frameRate = s.avgFrameRate ∧
    (dispatchStream env md s).videoTracks = md.videoTracks ++ [toVideoTrack s] := by
  simp [dispatchStream, h]

theorem dispatch_nonvideo_fields (env : ParseEnv) (md : MediaMetadata)
    (s : FfStream) (h : ¬ s.codecType = "video") :
    (dispatchStream env md s).codec = md.codec ∧
    (dispatchStream env md s).resolutionWidth = md.resolutionWidth ∧
    (dispatchStream env md s).resolutionHeight = md.resolutionHeight ∧
    (dispatchStream env md s).frameRate = md.frameRate ∧
    (dispatchStream env md s).videoTracks = md.videoTracks := by
  unfold dispatchStream
  rw [if_neg h]
  split
  · simp
  · split
    · simp
    · simp

theorem foldl_dispatch_no_video (env : ParseEnv) :
    ∀ (l : List FfStream) (md : MediaMetadata),
      (l.filter fun s => s.codecType = "video") = [] →
      (l.foldl (dispatchStream env) md).codec = md.codec ∧
      (l.foldl (dispatchStream env) md).resolutionWidth = md.resolutionWidth ∧
      (l.foldl (dispatchStream env) md).resolutionHeight = md.resolutionHeight ∧
      (l.foldl (dispatchStream env) md).frameRate = md.frameRate ∧
      (l.foldl (dispatchStream env) md).videoTracks = md.videoTracks := by
  intro l
  induction l with
  | nil => intro md _; simp
  | cons s rest ih =>
    intro md h
    rw [List.filter_cons] at h
    by_cases hv : s.codecType = "video"
    · rw [if_pos (by simp [hv])] at h
      exact absurd h (List.cons_ne_nil _ _)
    · rw [if_neg (by simp [hv])] at h
      have hd := dispatch_nonvideo_fields env md s hv
      have hr := ih (dispatchStream env md s) h
      simp only [List.foldl_cons]
      exact ⟨hr.1.trans hd.1, (hr.2.1).trans hd.2.1, (hr.2.2.1).trans hd.2.2.1,
        (hr.2.2.2.1).trans hd.2.2.2.1, (hr.2.2.2.2).trans hd.2.2.2.2⟩

theorem foldl_dispatch_tracks (env : ParseEnv) :
    ∀ (l : List FfStream) (md : MediaMetadata),
      (l.foldl (dispatchStream env) md).videoTracks =
        md.videoTracks ++ ((l.filter fun s => s.codecType = "video").map toVideoTrack) := by
  intro l
  induction l with
  | nil => intro md; simp
  | cons s rest ih =>
    intro md
    simp only [List.foldl_cons, List.filter_cons]
    by_cases hv : s.codecType = "video"
    · rw [ih (dispatchStream env md s),
        (dispatch_video_fields env md s hv).2.2.2.2]
      simp [hv, List.append_assoc]
    · rw [ih (dispatchStream env md s),
        (dispatch_nonvideo_fields env md s hv).2.2.2.2]
      simp [hv]

theorem foldl_dispatch_last_video (env : ParseEnv) :
    ∀ (l : List FfStream) (md : MediaMetadata) (pre : List FfStream) (s : FfStream),
      (l.filter fun x => x.codecType = "video") = pre ++ [s] →
      (l.foldl (dispatchStream env) md).codec = s.codecName ∧
      (l.foldl (dispatchStream env) md).resolutionWidth = s.width ∧
      (l.foldl (dispatchStream env) md).resolutionHeight = s.height ∧
      (l.foldl (dispatchStream env) md).frameRate = s.avgFrameRate := by
  intro l
  induction l with
  | nil =>
    intro md pre s h
    simp at h
  | cons a rest ih =>
    intro md pre s h
    rw [List.filter_cons] at h
    simp only [List.foldl_cons]
    by_cases hv : a.codecType = "video"
    · rw [if_pos (by simp [hv])] at h
      cases pre with
      | nil =>
        simp only [List.nil_append] at h
        have ha : a = s := by
          have := List.head_eq_of_cons_eq h
          exact this
        have hrest : (rest.filter fun x => x.codecType = "video") = [] :=
          List.tail_eq_of_cons_eq h
        have hnv := foldl_dispatch_no_video env rest (dispatchStream env md a) hrest
        have hdv := dispatch_video_fields env md a hv
        subst ha
        exact ⟨hnv.1.trans hdv.1, hnv.2.1.trans hdv.2.1,
          hnv.2.2.1.trans hdv.2.2.1, hnv.2.2.2.1.trans hdv.2.2.2.1⟩
      | cons p pre2 =>
        simp only [List.cons_append] at h
        have hrest : (rest.filter fun x => x.codecType = "video") = pre2 ++ [s] :=
          List.tail_eq_of_cons_eq h
        exact ih (dispatchStream env md a) pre2 s hrest
    · rw [if_neg (by simp [hv])] at h
      exact ih (dispatchStream env md a) pre s h

theorem walkGo_ok_append (env : ScanEnv) (lib : Library) :
    ∀ (pre rest : List FsEntry) (st : St) (tr : List String) (st1 : St)
      (tr1 : List String),
      walkGo env lib pre st tr = (st1, tr1, .ok) →
      walkGo env lib (pre ++ rest) st tr = walkGo env lib rest st1 tr1 := by
  intro pre
  induction pre with
  | nil =>
    intro rest st tr st1 tr1 h
    simp only [walkGo] at h
    cases h
    simp
  | cons e es ih =>
    intro rest st tr st1 tr1 h
    rw [List.cons_append]
    simp only [walkGo] at h ⊢
    by_cases hskip : (entryIsDir e || ! isVideoFile (entryPath e)) = true
    · rw [if_pos hskip] at h
      rw [if_pos hskip]
      exact ih rest st tr st1 tr1 h
    · rw [if_neg hskip] at h
      rw [if_neg hskip]
      cases hp : processFile env lib (entryPath e) st with
      | mk st2 res =>
        rw [hp] at h
        cases res with
        | ok => exact ih rest st2 (tr ++ [entryPath e]) st1 tr1 h
        | err er => cases h
        | crashed => cases h

/-! ## Claim theorems -/

/-- C6 (counterexample): `extractMovieInfo "Unknown.Movie.mkv"` does NOT
return the dot-normalized title "Unknown Movie" claimed by the spec — the
no-year fallback keeps the raw stem "Unknown.Movie". -/
theorem movie_parse_no_year_not_normalized :
    extractMovieInfo "Unknown.Movie.mkv" = { title := "Unknown.Movie", year := "" } ∧
    extractMovieInfo "Unknown.Movie.mkv" ≠ { title := "Unknown Movie", year := "" } := by
  constructor
  · decide
  · decide

/-- C6 (amended): `extractMovieInfo "Inception (2010).mkv"` is
{Inception, 2010}; with no year match the result is the RAW filename stem
(dots and underscores preserved) with an empty year, so
"Unknown.Movie.mkv" yields {Unknown.Movie, ""}. -/
theorem movie_parse_examples_amended :
    extractMovieInfo "Inception (2010).mkv" = { title := "Inception", year := "2010" } ∧
    extractMovieInfo "Unknown.Movie.mkv" = { title := "Unknown.Movie", year := "" } ∧
    ∀ p, movieScan [] (trimSuffixL (pathBase p).data (pathExt (pathBase p)).data) = none →
      extractMovieInfo p =
        { title := ⟨trimSuffixL (pathBase p).data (pathExt (pathBase p)).data⟩, year := "" } := by
  refine ⟨by decide, by decide, ?_⟩
  intro p h
  simp only [extractMovieInfo, h]

/-- C6 (witness): the no-year branch of the amended statement applied at
"Unknown.Movie.mkv". -/
theorem movie_parse_examples_amended_witness :
    extractMovieInfo "Unknown.Movie.mkv" =
      { title := ⟨trimSuffixL (pathBase "Unknown.Movie.mkv").data
          (pathExt (pathBase "Unknown.Movie.mkv")).data⟩, year := "" } :=
  movie_parse_examples_amended.2.2 "Unknown.Movie.mkv" (by decide)

/-- C3 (code bug): `processSeriesFile` hands the TMDb catalog id to
`seriesRepo.FindByID`, a PRIMARY-KEY lookup, so a series already persisted
with catalog id 42 (but primary key 1) is not found and a second series
with the same catalog id is created — the find-or-create by catalog id the
spec describes does not happen. -/
theorem series_find_or_create_uses_primary_key_bug :
    (st3.db.series.map fun s => (s.item.id, s.tmdbID)) = [(1, 42)] ∧
    seriesRepoFindByID false st3.db 42 = .ok none ∧
    ((processSeriesFile env3 libTV "Alpha.S01E02.mkv" st3).1.db.series.map
      fun s => (s.item.id, s.tmdbID)) = [(1, 42), (2, 42)] ∧
    (processSeriesFile env3 libTV "Alpha.S01E02.mkv" st3).2 = .ok := by
  refine ⟨by decide, by decide, by decide, by decide⟩

/-- C4 (code bug): when the probe exits non-zero but its output still
parses, `Extract` returns a nil record with an error (the soft-error
handling below its early return is unreachable), and `processMovieFile`
then dereferences the nil record — a crash instead of the best-effort
continuation the spec describes. -/
theorem extract_soft_error_unreachable_bug :
    (parseFFprobeJSONOutput parseEnv0 (some docOneVideo)).toOption.isSome = true ∧
    serviceExtract parseEnv0 (.exitError (some docOneVideo) "boom") "Movie (2020).mkv" =
      (none, some "failed to extract media metadata: ffprobe command failed with stderr: boom") ∧
    (processMovieFile env4 lib0 "Movie (2020).mkv" st0).2 = .crashed ∧
    (processMovieFile env4 lib0 "Movie (2020).mkv" st0).1.db.movies = [] := by
  refine ⟨by decide, by decide, by decide, by decide⟩

/-- C5 (counterexample): on a document with two video streams the parsed
top-level codec is that of the LAST video stream ("hevc"), not of the
first ("h264") as the claim states. -/
theorem parse_first_video_claim_false :
    ((videoStreamsOf docTwoVideos).head?.map FfStream.codecName) = some "h264" ∧
    ((parseFFprobeJSONOutput parseEnv0 (some docTwoVideos)).toOption.map
      MediaMetadata.codec) = some "hevc" ∧
    "hevc" ≠ "h264" := by
  refine ⟨by decide, by decide, by decide⟩

/-- C5 (amended): for every probe document with more than one video
stream, the top-level Codec/ResolutionWidth/ResolutionHeight/FrameRate
come from the LAST video stream of the array, while VideoTracks retains
every video stream in input order. -/
theorem parse_top_fields_from_last_video (env : ParseEnv) (d : FfprobeData)
    (pre : List FfStream) (s : FfStream)
    (hmulti : 1 < (videoStreamsOf d).length)
    (hlast : videoStreamsOf d = pre ++ [s]) :
    ∃ md, parseFFprobeJSONOutput env (some d) = .ok md ∧
      md.codec = s.codecName ∧ md.resolutionWidth = s.width ∧
      md.resolutionHeight = s.height ∧ md.frameRate = s.avgFrameRate ∧
      md.videoTracks = (videoStreamsOf d).map toVideoTrack := by
  unfold videoStreamsOf at hlast
  simp only [parseFFprobeJSONOutput]
  refine ⟨_, rfl, ?_, ?_, ?_, ?_, ?_⟩
  · exact (foldl_dispatch_last_video env d.streams _ pre s hlast).1
  · exact (foldl_dispatch_last_video env d.streams _ pre s hlast).2.1
  · exact (foldl_dispatch_last_video env d.streams _ pre s hlast).2.2.1
  · exact (foldl_dispatch_last_video env d.streams _ pre s hlast).2.2.2
  · rw [foldl_dispatch_tracks env d.streams _]
    simp [videoStreamsOf]

/-- C5 (witness): the amended statement evaluated on the two-video
document: the last video stream is "hevc" and both tracks are retained. -/
theorem parse_top_fields_from_last_video_witness :
    ((parseFFprobeJSONOutput parseEnv0 (some docTwoVideos)).toOption.map
      MediaMetadata.codec) = some "hevc" ∧
    ((parseFFprobeJSONOutput parseEnv0 (some docTwoVideos)).toOption.map
      fun md => md.videoTracks.length) = some 2 := by
  obtain ⟨md, hmd, hcodec, _, _, _, htracks⟩ :=
    parse_top_fields_from_last_video parseEnv0 docTwoVideos [streamVidA]
      streamVidB (by decide) (by decide)
  constructor
  · rw [hmd]
    show some md.codec = some "hevc"
    rw [hcodec]
    decide
  · rw [hmd]
    show some md.videoTracks.length = some 2
    rw [htracks]
    decide

/-- C8: on a firing of a scheduled task (its interval parses, both
persists succeed), the running status with lastRun is persisted before the
executor is invoked; afterwards the status is idle on success and failed
on error, nextRun is advanced to now plus the interval, the task is
persisted again, and the status is never left at running. -/
theorem scheduler_firing_transitions (env : SchedEnv) (task : ScheduledTask)
    (d : Time)
    (hparse : env.parseDuration task.interval = some d)
    (h1 : env.update1Ok = true) (h2 : env.update2Ok = true) :
    taskWrapperExecute env task =
      ({ task with status := postStatus env.execResult, lastRun := env.now1
                   nextRun := env.now2 + d },
       [SchedEvent.persistAttempt
          { task with status := .running, lastRun := env.now1 } true,
        SchedEvent.executorInvoked task.config,
        SchedEvent.persistAttempt
          { task with status := postStatus env.execResult, lastRun := env.now1
                      nextRun := env.now2 + d } true],
       env.execResult) ∧
    postStatus env.execResult ≠ .running := by
  constructor
  · unfold taskWrapperExecute
    rw [h1, h2, hparse]
    cases env.execResult with
    | none => simp [postStatus]
    | some e => simp [postStatus]
  · cases henv : env.execResult with
    | none => simp [postStatus]
    | some e => simp [postStatus]

/-- C8 (witness): the transition theorem applied to a concrete firing with
a failing executor: status ends failed, nextRun advanced by the parsed
24h, and the persist of the running state precedes the executor
invocation. -/
theorem scheduler_firing_transitions_witness :
    (taskWrapperExecute env8 task8).1.status = TaskStatus.failed ∧
    (taskWrapperExecute env8 task8).1.nextRun = 864020 ∧
    (taskWrapperExecute env8 task8).2.2 = some "boom" := by
  have h := scheduler_firing_transitions env8 task8 864000 rfl rfl rfl
  rw [h.1]
  refine ⟨by decide, by decide, by decide⟩

/-- A persisted season (series 7, season 1) with no episodes, used by the
not-found-contract witness. -/
def season7 : Season :=
  { item := { id := 3, libraryID := 1, dateAdded := 0, filePath := ""
              container := "", codec := "", resolutionWidth := 0
              resolutionHeight := 0, audioChannels := 0 }
    seriesID := 7, seasonNumber := 1, overview := "", airDate := 0
    posterPath := "", lastScanned := 0 }

/-- Store holding only `season7`. -/
def dbSeason : DB := { dbEmpty with seasons := [season7], nextSeasonID := 4 }

/-- C9 (counterexample): `movieRepository.FindByID` — one of the finders
the claim covers — reports absence as a wrapped not-found ERROR, not as a
nil entity with nil error. -/
theorem movie_find_by_id_not_found_error :
    movieRepoFindByID false dbEmpty 5 =
      .error "movie with ID not found: not found" ∧
    movieRepoFindByID false dbEmpty 5 ≠ .ok none := by
  exact ⟨by decide, by decide⟩

/-- C9 (amended): the finders consumed by the reconciler — FindByPath for
movies and episodes, series FindByID, FindSeasonByNumber and both levels
of FindEpisodeByNumber — report absence as a nil entity with nil error;
`movieRepository.FindByID` is the exception and reports absence as a
wrapped not-found error. -/
theorem finders_not_found_contract_amended :
    (∀ db p, (db.movies.filter fun m => m.item.filePath = p) = [] →
      movieRepoFindByPath false db p = .ok none) ∧
    (∀ db p, (db.episodes.filter fun e => e.item.filePath = p) = [] →
      episodeRepoFindByPath false db p = .ok none) ∧
    (∀ db id, (db.series.filter fun s => s.item.id = id) = [] →
      seriesRepoFindByID false db id = .ok none) ∧
    (∀ db sid n, (db.seasons.filter fun s => s.seriesID = sid ∧ s.seasonNumber = n) = [] →
      seasonRepoFindSeasonByNumber false db sid n = .ok none) ∧
    (∀ db f2 sid n en,
      (db.seasons.filter fun s => s.seriesID = sid ∧ s.seasonNumber = n) = [] →
      episodeRepoFindEpisodeByNumber false f2 db sid n en = .ok none) ∧
    (∀ db sid n en s rest,
      (db.seasons.filter fun x => x.seriesID = sid ∧ x.seasonNumber = n) = s :: rest →
      (db.episodes.filter fun e => e.seasonID = s.item.id ∧ e.episodeNumber = en) = [] →
      episodeRepoFindEpisodeByNumber false false db sid n en = .ok none) ∧
    (∀ db id, ¬ id = 0 → (db.movies.filter fun m => m.item.id = id) = [] →
      movieRepoFindByID false db id = .error "movie with ID not found: not found") := by
  refine ⟨?_, ?_, ?_, ?_, ?_, ?_, ?_⟩
  · intro db p h
    simp [movieRepoFindByPath, gormFirst, h]
  · intro db p h
    simp [episodeRepoFindByPath, gormFirst, h]
  · intro db id h
    simp [seriesRepoFindByID, gormFirst, h]
  · intro db sid n h
    simp only [Bool.decide_and] at h
    simp [seasonRepoFindSeasonByNumber, gormFirst, h]
  · intro db f2 sid n en h
    simp only [Bool.decide_and] at h
    simp [episodeRepoFindEpisodeByNumber, gormFirst, h]
  · intro db sid n en s rest h1 h2
    simp only [Bool.decide_and] at h1 h2
    simp [episodeRepoFindEpisodeByNumber, gormFirst, h1, h2]
  · intro db id h0 h
    simp [movieRepoFindByID, gormFirst, h0, h]

/-- C9 (witness): the amended contract evaluated on concrete stores: every
reconciler-consumed finder yields ok-none on absence, and
movieRepository.FindByID yields the not-found error. -/
theorem finders_not_found_contract_amended_witness :
    movieRepoFindByPath false dbEmpty "/x.mkv" = .ok none ∧
    episodeRepoFindByPath false dbEmpty "/x.mkv" = .ok none ∧
    seriesRepoFindByID false dbEmpty 7 = .ok none ∧
    seasonRepoFindSeasonByNumber false dbEmpty 7 1 = .ok none ∧
    episodeRepoFindEpisodeByNumber false false dbEmpty 7 1 2 = .ok none ∧
    episodeRepoFindEpisodeByNumber false false dbSeason 7 1 2 = .ok none ∧
    movieRepoFindByID false dbEmpty 7 = .error "movie with ID not found: not found" := by
  have h := finders_not_found_contract_amended
  exact ⟨h.1 dbEmpty "/x.mkv" (by decide), h.2.1 dbEmpty "/x.mkv" (by decide),
    h.2.2.1 dbEmpty 7 (by decide), h.2.2.2.1 dbEmpty 7 1 (by decide),
    h.2.2.2.2.1 dbEmpty false 7 1 2 (by decide),
    h.2.2.2.2.2.1 dbSeason 7 1 2 season7 [] (by decide) (by decide),
    h.2.2.2.2.2.2 dbEmpty 7 (by decide) (by decide)⟩

/-- C10: a file is dispatched to the series pipeline exactly when its base
filename contains "s0" or "e0" case-insensitively; consequently
"Show.1x01.mkv" — which `extractTVShowInfo` parses as season 1 episode 1 —
is processed as a movie. -/
theorem tv_dispatch_marker_iff :
    (∀ p, isLikelyTVFile p =
      (strContains (lowerStr (pathBase p)) "s0" ||
       strContains (lowerStr (pathBase p)) "e0")) ∧
    (∀ env lib st, processFile env lib "Show.1x01.mkv" st =
      processMovieFile env lib "Show.1x01.mkv" st) ∧
    extractTVShowInfo "Show.1x01.mkv" = { title := "Show", season := 1, episode := 1 } := by
  refine ⟨?_, ?_, by decide⟩
  · intro p
    unfold isLikelyTVFile
    cases hS : strContains (pathBase p) "S0" with
    | true =>
      have h1 := strContains_lower hS
      rw [show lowerStr "S0" = "s0" from by decide] at h1
      simp [h1]
    | false =>
      cases hE : strContains (pathBase p) "E0" with
      | true =>
        have h1 := strContains_lower hE
        rw [show lowerStr "E0" = "e0" from by decide] at h1
        simp [h1]
      | false => simp [hS, hE]
  · intro env lib st
    simp [processFile, show isLikelyTVFile "Show.1x01.mkv" = false from by decide]

/-- C7: "Show.Name.S02E05.mkv" parses to {Show Name, 2, 5}; an input
matched by none of the three patterns yields season 0 and episode 0, and
`processSeriesFile` then returns with the state untouched (nothing
persisted, no catalog query, no season-1-episode-1 fabrication). -/
theorem episode_parse_and_skip :
    extractTVShowInfo "Show.Name.S02E05.mkv" =
      { title := "Show Name", season := 2, episode := 5 } ∧
    (∀ p, tvScan p1Tail [] (trimSuffixL (pathBase p).data (pathExt (pathBase p)).data) = none →
          tvScan p2Tail [] (trimSuffixL (pathBase p).data (pathExt (pathBase p)).data) = none →
          tvScan p3Tail [] (trimSuffixL (pathBase p).data (pathExt (pathBase p)).data) = none →
      (extractTVShowInfo p).season = 0 ∧ (extractTVShowInfo p).episode = 0) ∧
    (∀ env lib p st,
      (extractTVShowInfo p).season = 0 ∨ (extractTVShowInfo p).episode = 0 →
      processSeriesFile env lib p st = (st, .ok)) := by
  refine ⟨by decide, ?_, ?_⟩
  · intro p h1 h2 h3
    simp [extractTVShowInfo, h1, h2, h3]
  · intro env lib p st h
    simp only [processSeriesFile]
    rw [if_pos h]

/-- C7 (witness): the skip branch applied at "Unknown.mkv": no pattern
matches, season and episode are 0, and `processSeriesFile` leaves the
state untouched. -/
theorem episode_parse_and_skip_witness :
    ((extractTVShowInfo "Unknown.mkv").season = 0 ∧
     (extractTVShowInfo "Unknown.mkv").episode = 0) ∧
    processSeriesFile env0 lib0 "Unknown.mkv" st0 = (st0, .ok) := by
  constructor
  · exact episode_parse_and_skip.2.1 "Unknown.mkv" (by decide) (by decide) (by decide)
  · exact episode_parse_and_skip.2.2 env0 lib0 "Unknown.mkv" st0 (Or.inl (by decide))

/-- C2: reprocessing a file path already persisted as a Movie performs no
catalog query and no create: the call returns after refreshing only the
existing row's lastScanned (two repository calls: the path lookup and the
save), leaving the event trace, the auto-increment counter and the number
of rows unchanged. -/
theorem movie_rescan_update_only (env : ScanEnv) (lib : Library) (p : String)
    (st : St) (m : Movie)
    (hnf : ∀ i, env.dbFault i = false)
    (hfound : (st.db.movies.filter fun x => x.item.filePath = p).head? = some m) :
    processMovieFile env lib p st =
      ({ st with db := dbSaveMovie st.db { m with lastScanned := env.now }
                 opIdx := st.opIdx + 2 }, .ok) ∧
    (processMovieFile env lib p st).1.events = st.events ∧
    (processMovieFile env lib p st).1.db.nextMovieID = st.db.nextMovieID ∧
    (processMovieFile env lib p st).1.db.movies.length = st.db.movies.length := by
  have h0 := hnf st.opIdx
  have h1 := hnf (st.opIdx + 1)
  have e1 : stFindMovieByPath env st p =
      ({ st with opIdx := st.opIdx + 1 }, .ok (some m)) := by
    cases hfil : st.db.movies.filter (fun x => x.item.filePath = p) with
    | nil =>
      rw [hfil] at hfound
      simp at hfound
    | cons a tl =>
      rw [hfil] at hfound
      have ham : a = m := by simpa using hfound
      subst ham
      simp [stFindMovieByPath, opFault, movieRepoFindByPath, gormFirst, h0, hfil]
  have e2 : stSaveMovie env { st with opIdx := st.opIdx + 1 }
      { m with lastScanned := env.now } =
      ({ st with db := dbSaveMovie st.db { m with lastScanned := env.now }
                 opIdx := st.opIdx + 2 }, none) := by
    simp [stSaveMovie, opFault, h1]
  have hmain : processMovieFile env lib p st =
      ({ st with db := dbSaveMovie st.db { m with lastScanned := env.now }
                 opIdx := st.opIdx + 2 }, .ok) := by
    unfold processMovieFile
    simp only [e1, e2]
  refine ⟨hmain, ?_, ?_, ?_⟩
  · rw [hmain]
  · rw [hmain]
    simp [dbSaveMovie]
  · rw [hmain]
    simp [dbSaveMovie]

/-- C2 (witness): rescanning the persisted path of `movie0` refreshes only
its lastScanned and leaves the trace (no catalog query) untouched. -/
theorem movie_rescan_update_only_witness :
    processMovieFile env0 lib0 "/m/Inception (2010).mkv" stM =
      ({ stM with db := dbSaveMovie stM.db { movie0 with lastScanned := env0.now }
                  opIdx := stM.opIdx + 2 }, .ok) ∧
    (processMovieFile env0 lib0 "/m/Inception (2010).mkv" stM).1.events = stM.events :=
  have h := movie_rescan_update_only env0 lib0 "/m/Inception (2010).mkv" stM movie0
    (fun _ => rfl) (by decide)
  ⟨h.1, h.2.1⟩

/-- C1 (counterexample): with two video files under the single enabled
path and a repository fault failing reconciliation of the first, the walk
does NOT process the second file of that path (the claim says files
k+1..N are still processed); the library's lastScanned is still stamped. -/
theorem scan_walk_aborts_for_later_files :
    isVideoFile "/media/B.mkv" = true ∧
    (scanLibrary env1 lib1 st1fix).trace = ["/media/A.mkv"] ∧
    ¬ ("/media/B.mkv" ∈ (scanLibrary env1 lib1 st1fix).trace) ∧
    (scanLibrary env1 lib1 st1fix).lib = some { lib1 with lastScanned := 100 } := by
  exact ⟨by decide, by decide, by decide, by decide⟩

/-- C1 (amended): a per-file reconciliation error ABORTS the walk of the
current path — files before the failing one are processed, the failing
file is the last one handed to the reconciler, and the files after it in
that path are skipped; the error is only logged at path level, so the
remaining paths are still scanned, and after the paths the library's
lastScanned is still stamped and handed to UpdateLibrary. -/
theorem scan_fault_isolation_amended :
    (∀ (env : ScanEnv) (lib : Library) (pre : List FsEntry) (f : FsEntry)
       (post : List FsEntry) (st : St) (tr : List String) (st1 : St)
       (tr1 : List String) (st2 : St) (er : GoErr),
      walkGo env lib pre st tr = (st1, tr1, .ok) →
      entryIsDir f = false → isVideoFile (entryPath f) = true →
      processFile env lib (entryPath f) st1 = (st2, .err er) →
      walkGo env lib (pre ++ f :: post) st tr = (st2, tr1 ++ [entryPath f], .err er)) ∧
    (∀ (env : ScanEnv) (lib : Library) (p : LibraryPath) (ps : List LibraryPath)
       (st st1 : St) (tr : List String) (er : GoErr),
      p.enabled = true →
      scanPath env lib p.path st = (st1, tr, .err er) →
      scanPaths env lib (p :: ps) st =
        ((scanPaths env lib ps st1).1, tr ++ (scanPaths env lib ps st1).2.1,
         (scanPaths env lib ps st1).2.2)) ∧
    (∀ (env : ScanEnv) (lib : Library) (st : St),
      (scanLibrary env lib st).crashed = false →
      (scanLibrary env lib st).lib = some { lib with lastScanned := env.now }) := by
  refine ⟨?_, ?_, ?_⟩
  · intro env lib pre f post st tr st1 tr1 st2 er hpre hdir hvid hproc
    rw [walkGo_ok_append env lib pre (f :: post) st tr st1 tr1 hpre]
    simp only [walkGo, hdir, hvid, Bool.not_true, Bool.or_false, if_false]
    rw [hproc]
    simp
  · intro env lib p ps st st1 tr er hp hscan
    simp only [scanPaths, hp, Bool.not_true, if_false]
    rw [hscan]
    cases hres : scanPaths env lib ps st1 with
    | mk st2 rest =>
      cases rest with
      | mk tr2 c => simp [hres]
  · intro env lib st h
    unfold scanLibrary at h ⊢
    cases hsp : scanPaths env lib lib.paths st with
    | mk st1 rest =>
      cases rest with
      | mk tr c =>
        cases c with
        | true =>
          rw [hsp] at h
          simp at h
        | false =>
          cases hsv : stSaveLibrary env st1 { lib with lastScanned := env.now } with
          | mk st2 uerr => simp [hsv]

/-- C1 (witness): the amended behavior on the concrete two-file scenario:
the walk returns at the failing first file without touching the second,
and the scan still stamps the library's lastScanned. -/
theorem scan_fault_isolation_amended_witness :
    walkGo env1 lib1 [FsEntry.file "/media/A.mkv", FsEntry.file "/media/B.mkv"]
        st1fix [] =
      ({ st1fix with opIdx := 1 }, ["/media/A.mkv"],
       .err "error checking for existing movie: failed to find movie by path: db error") ∧
    (scanLibrary env1 lib1 st1fix).lib = some { lib1 with lastScanned := env1.now } := by
  constructor
  · exact scan_fault_isolation_amended.1 env1 lib1 [] (FsEntry.file "/media/A.mkv")
      [FsEntry.file "/media/B.mkv"] st1fix [] st1fix [] { st1fix with opIdx := 1 }
      "error checking for existing movie: failed to find movie by path: db error"
      rfl rfl (by decide) (by decide)
  · exact scan_fault_isolation_amended.2.2 env1 lib1 st1fix (by decide)

end Cinea

